import Mathlib

/-!
# User-Management-Backend — verification of the specification against the code

Shallow embedding of the Python sources of the repository
`Prathibha-24/User-Management-Backend`:

* `src/apps/utils/validators.py`        → `validate_user_payload`
* `src/apps/models/user_model.py`       → `User.to_dict`
* `src/apps/repositories/user_repository.py`
    → `create_user`, `get_user_by_id`, `get_user_by_email`,
      `update_user`, `delete_user`, `search_users_by_name` over an explicit
      `Store` (the SQLite `users` table plus the AUTOINCREMENT counter)
* `src/apps/usecases/user_usecase.py`   → `UserUseCase.*`
* `src/middlewares/auth_middleware.py`  → `token_required`
* `src/apps/controllers/user_controller.py` → `UserController.*`

JSON / Python values are modelled by `JVal` (primitives) and `PyObj`
(a primitive or a one-level JSON object); the validator and the
controllers only ever inspect string-ness, truthiness and length of
field values, so one level of nesting suffices for every property
stated below.  Fallible Python code is modelled in `Except`:
a `.error` result models an uncaught Python exception.
-/

deriving instance DecidableEq for Except

/-- A primitive JSON / Python value, as stored in a request payload or in a
decoded JWT payload. -/
inductive JVal where
  | vnone : JVal
  | vstr (s : String) : JVal
  | vint (n : Int) : JVal
  | vbool (b : Bool) : JVal
deriving DecidableEq, Repr

/-- A Python object handed to the validator / a controller: either a JSON
object (a dict, keys unique, modelled as an association list looked up on the
first hit) or a primitive value (`request.get_json()` can produce both). -/
inductive PyObj where
  | prim (v : JVal) : PyObj
  | dict (entries : List (String × JVal)) : PyObj
deriving DecidableEq, Repr

/-- Python exception kinds the embedded code can raise. -/
inductive PyErr where
  | attributeError : PyErr
  | typeError : PyErr
  | keyError : PyErr
deriving DecidableEq, Repr

/-- Python truthiness of a primitive value. -/
def JVal.truthy : JVal → Bool
  | .vnone => false
  | .vstr s => s ≠ ""
  | .vint n => n ≠ 0
  | .vbool b => b

/-- Python truthiness of a payload (`if not data`). -/
def PyObj.truthy : PyObj → Bool
  | .prim v => v.truthy
  | .dict es => es ≠ []

/-- Dictionary lookup (Python dicts have unique keys; an association list
looked up on the first hit is faithful). -/
def lookupJ (es : List (String × JVal)) (k : String) : Option JVal :=
  (es.find? (fun kv => kv.1 == k)).map (·.2)

/-- `data.get(k)`: `none` models Python `None` (key absent).  Raises
`AttributeError` on a non-dict receiver, exactly as Python does. -/
def pyGet (data : PyObj) (k : String) : Except PyErr (Option JVal) :=
  match data with
  | .dict es => .ok (lookupJ es k)
  | .prim _ => .error .attributeError

/-- `k in data`: key test on dicts, substring test on strings, `TypeError`
on non-iterable primitives. -/
def pyHas (data : PyObj) (k : String) : Except PyErr Bool :=
  match data with
  | .dict es => .ok (es.any (fun kv => kv.1 == k))
  | .prim (.vstr s) => .ok ((s.splitOn k).length ≥ 2)
  | .prim _ => .error .typeError

/-- `data[k]`: item access; `KeyError` when the key is absent from a dict,
`TypeError` on primitives (string/int indices are not strings). -/
def pyIndex (data : PyObj) (k : String) : Except PyErr JVal :=
  match data with
  | .dict es =>
    match lookupJ es k with
    | some v => .ok v
    | none => .error .keyError
  | .prim _ => .error .typeError

/-- `not data.get(k)`: the field is absent or its value is falsy. -/
def optFalsy (o : Option JVal) : Bool :=
  match o with
  | none => true
  | some v => ¬ v.truthy

/-- Characters stripped by Python `str.strip()` (ASCII whitespace). -/
def isPySpace (c : Char) : Bool :=
  c = ' ' ∨ c = '\t' ∨ c = '\n' ∨ c = '\x0d' ∨ c = '\x0b' ∨ c = '\x0c'

/-- Python `str.strip()` on ASCII whitespace. -/
def pyStrip (s : String) : String :=
  ⟨((s.data.dropWhile isPySpace).reverse.dropWhile isPySpace).reverse⟩

/-- `[a-zA-Z0-9._%+-]`, the local-part character class of the e-mail regex. -/
def localChar (c : Char) : Bool :=
  c.isAlpha ∨ c.isDigit ∨ c = '.' ∨ c = '_' ∨ c = '%' ∨ c = '+' ∨ c = '-'

/-- `[a-zA-Z0-9.-]`, the domain character class of the e-mail regex. -/
def domainChar (c : Char) : Bool :=
  c.isAlpha ∨ c.isDigit ∨ c = '.' ∨ c = '-'

/-- The part after `@` must match `[a-zA-Z0-9.-]+\.[a-zA-Z]{2,}` (anchored):
some dot splits it into a non-empty domain-char run and an all-alpha tail of
length ≥ 2. -/
def emailDomainOk (cs : List Char) : Bool :=
  (List.range cs.length).any (fun i =>
    cs.get? i = some '.' ∧ 1 ≤ i ∧ (cs.take i).all domainChar ∧
      2 ≤ (cs.drop (i + 1)).length ∧ (cs.drop (i + 1)).all Char.isAlpha)

/-- `re.match(r"^[a-zA-Z0-9._%+-]+@[a-zA-Z0-9.-]+\.[a-zA-Z]{2,}$", s)`:
the language of the anchored regex.  `$` also matches just before one
trailing newline, as in Python. -/
def emailRegexMatch (s : String) : Bool :=
  let cs := if s.data.getLast? = some '\n' then s.data.dropLast else s.data
  match cs.splitOn '@' with
  | [localPart, domainPart] =>
    localPart ≠ [] ∧ localPart.all localChar ∧ emailDomainOk domainPart
  | _ => false

/-- Errors contributed by the email-format block for a present, truthy value. -/
def emailValErrs (v : JVal) : List String :=
  match v with
  | .vstr s => if emailRegexMatch s then [] else ["Invalid email format."]
  | _ => ["Email must be a string."]

/-- Errors contributed by the password block for a present, truthy value. -/
def passwordValErrs (v : JVal) : List String :=
  match v with
  | .vstr s =>
    if s.length < 8 then ["Password must be at least 8 characters long."] else []
  | _ => ["Password must be a string."]

/-- Errors contributed by the name block for a present, truthy value. -/
def nameValErrs (v : JVal) : List String :=
  match v with
  | .vstr s => if (pyStrip s).length = 0 then ["Name cannot be empty."] else []
  | _ => ["Name must be a string."]

/-- The required-field errors collected in create mode, in source order. -/
def requiredErrs (es : List (String × JVal)) : List String :=
  (if optFalsy (lookupJ es "name") then ["Name is required."] else []) ++
  (if optFalsy (lookupJ es "email") then ["Email is required."] else []) ++
  (if optFalsy (lookupJ es "password") then ["Password is required."] else [])

/-- One format block of the validator: `if k in data and data[k]: ...checks`.
May raise when `data` is not a dict, exactly where Python would. -/
def formatBlock (data : PyObj) (k : String) (checks : JVal → List String) :
    Except PyErr (List String) := do
  let present ← pyHas data k
  if present then do
    let v ← pyIndex data k
    if v.truthy then pure (checks v) else pure []
  else pure []

/-- `validate_user_payload(data, create)` from `src/apps/utils/validators.py`.
Returns the list of error messages; an `.error` result models an uncaught
Python exception (e.g. `AttributeError` from `data.get` on a non-dict). -/
def validate_user_payload (data : PyObj) (create : Bool) :
    Except PyErr (List String) := do
  if ¬ data.truthy then return ["No data provided in the request body."]
  let reqErrs ←
    if create then do
      let n ← pyGet data "name"
      let e ← pyGet data "email"
      let p ← pyGet data "password"
      pure ((if optFalsy n then ["Name is required."] else []) ++
            (if optFalsy e then ["Email is required."] else []) ++
            (if optFalsy p then ["Password is required."] else []))
    else pure []
  -- the early return sits inside the `if create:` block; in update mode
  -- `reqErrs` is `[]`, so guarding on non-emptiness alone is equivalent
  if reqErrs ≠ [] then return reqErrs
  let eErrs ← formatBlock data "email" emailValErrs
  let pErrs ← formatBlock data "password" passwordValErrs
  let nErrs ← formatBlock data "name" nameValErrs
  return eErrs ++ pErrs ++ nErrs

example : validate_user_payload (.dict []) true =
    .ok ["No data provided in the request body."] := by decide

example : validate_user_payload (.prim (.vint 1)) true =
    .error .attributeError := by decide

example : validate_user_payload
    (.dict [("email", .vstr "not-an-email")]) true =
    .ok ["Name is required.", "Password is required."] := by decide

example : validate_user_payload
    (.dict [("name", .vstr "John"), ("email", .vstr "john@example.com"),
            ("password", .vstr "password123")]) true = .ok [] := by decide

example : emailRegexMatch "john@example.com" = true := by decide
example : emailRegexMatch "john@example" = false := by decide
example : emailRegexMatch "bad" = false := by decide

/-! ## Data model and repository (`user_model.py`, `user_repository.py`) -/

/-- A row of the `users` table / the `User` entity of `user_model.py`.
`password` stores the password hash. -/
structure User where
  user_id : Nat
  name : String
  email : String
  password : String
deriving DecidableEq, Repr

/-- `User.to_dict()`: serialization that deliberately omits the password. -/
def User.to_dict (u : User) : List (String × JVal) :=
  [("id", .vint u.user_id), ("name", .vstr u.name), ("email", .vstr u.email)]

/-- The SQLite `users` table: rows in insertion order plus the
`AUTOINCREMENT` counter (always larger than every id ever assigned). -/
structure Store where
  rows : List User
  nextId : Nat
deriving DecidableEq, Repr

/-- Error kinds an operation can surface to the controller:
`integrity` models `sqlite3.IntegrityError` (UNIQUE violation),
`valueError` models `ValueError` raised by the use-case layer,
`pyError` models any other uncaught Python exception. -/
inductive OpErr where
  | integrity : OpErr
  | valueError : OpErr
  | pyError : OpErr
deriving DecidableEq, Repr

/-- The TEXT form SQLite compares a bound parameter against a TEXT-affinity
column with (`none` = SQL NULL, which matches no row via `=`). -/
def sqlTextOf : JVal → Option String
  | .vstr s => some s
  | .vint n => some (toString n)
  | .vbool b => some (if b then "1" else "0")
  | .vnone => none

/-- `UserRepository.get_user_by_id`: first row whose id matches. -/
def get_user_by_id (st : Store) (i : Int) : Option User :=
  st.rows.find? (fun u => (u.user_id : Int) == i)

/-- `UserRepository.get_user_by_email` for a TEXT parameter. -/
def get_user_by_email (st : Store) (email : String) : Option User :=
  st.rows.find? (fun u => u.email == email)

/-- `UserRepository.get_user_by_email` with an arbitrary bound parameter
(the login route performs no type validation, so a JSON number can reach
the query; SQLite applies TEXT affinity). -/
def get_user_by_emailV (st : Store) (v : JVal) : Option User :=
  match sqlTextOf v with
  | some s => get_user_by_email st s
  | none => none

/-- `UserRepository.create_user`: INSERT; the UNIQUE constraint on `email`
raises `sqlite3.IntegrityError` and the transaction is rolled back, leaving
the store unchanged. -/
def repo_create_user (st : Store) (name email password : String) :
    Except OpErr Store :=
  if st.rows.any (fun u => u.email == email) then .error .integrity
  else .ok ⟨st.rows ++ [⟨st.nextId, name, email, password⟩], st.nextId + 1⟩

/-- `UserRepository.update_user`: one UPDATE statement covering the supplied
fields; a collision of the new email with a *different* row violates UNIQUE,
raises `sqlite3.IntegrityError` and rolls back. -/
def repo_update_user (st : Store) (i : Int)
    (name email password : Option String) : Except OpErr Store :=
  if name = none ∧ email = none ∧ password = none then .ok st
  else
    let hits := fun u => ((u.user_id : Nat) : Int) == i
    let conflict :=
      match email with
      | some e =>
        st.rows.any (fun u => hits u) &&
          st.rows.any (fun u => !hits u && u.email == e)
      | none => false
    if conflict then .error .integrity
    else .ok ⟨st.rows.map (fun u =>
      if hits u then
        { u with
          name := name.getD u.name
          email := email.getD u.email
          password := password.getD u.password }
      else u), st.nextId⟩

/-- `UserRepository.delete_user`: DELETE WHERE id=?. -/
def repo_delete_user (st : Store) (i : Int) : Store :=
  ⟨st.rows.filter (fun u => ¬ ((u.user_id : Int) == i)), st.nextId⟩

/-! ## LIKE matching (`search_users_by_name`) -/

/-- ASCII lowering of one character: exactly the semantics of SQLite `LOWER`
(which folds only `A`-`Z`, on every input).  Python `str.lower()` agrees on
ASCII characters but additionally folds non-ASCII letters, so on the search
TEXT (lowered by Python in the source) this function is exact only for ASCII
texts — the search theorem below is restricted accordingly. -/
def asciiLowerChar (c : Char) : Char :=
  match c with
  | 'A' => 'a' | 'B' => 'b' | 'C' => 'c' | 'D' => 'd' | 'E' => 'e'
  | 'F' => 'f' | 'G' => 'g' | 'H' => 'h' | 'I' => 'i' | 'J' => 'j'
  | 'K' => 'k' | 'L' => 'l' | 'M' => 'm' | 'N' => 'n' | 'O' => 'o'
  | 'P' => 'p' | 'Q' => 'q' | 'R' => 'r' | 'S' => 's' | 'T' => 't'
  | 'U' => 'u' | 'V' => 'v' | 'W' => 'w' | 'X' => 'x' | 'Y' => 'y'
  | 'Z' => 'z'
  | c => c

/-- ASCII lowering of a string. -/
def asciiLower (s : String) : String := ⟨s.data.map asciiLowerChar⟩

/-- SQL `LIKE` matching (case already folded on both sides by the query):
`%` matches any run, `_` any single character, anything else literally.
Written with explicit fuel so that it is structurally recursive (and hence
kernel-computable); every recursive call shrinks `p.length + s.length`, so
`p.length + s.length + 1` fuel always suffices (`likeMatchF_fuel` below). -/
def likeMatchF : Nat → List Char → List Char → Bool
  | 0, _, _ => false
  | _ + 1, [], s => s.isEmpty
  | fuel + 1, p :: ps, s =>
    if p = '%' then
      likeMatchF fuel ps s ||
        (match s with
         | [] => false
         | _ :: s' => likeMatchF fuel (p :: ps) s')
    else
      match s with
      | [] => false
      | c :: s' => (if p = '_' then true else p == c) && likeMatchF fuel ps s'

/-- SQL `LIKE` matching with sufficient fuel. -/
def likeMatch (p s : List Char) : Bool :=
  likeMatchF (p.length + s.length + 1) p s

/-- `UserRepository.search_users_by_name`:
`SELECT ... WHERE LOWER(name) LIKE ?` with parameter
`'%' + text.lower() + '%'`.  The column side (`LOWER`) is ASCII lowering
exactly; the parameter side is Python's Unicode `str.lower()`, modelled here
by the same ASCII lowering, which coincides with it precisely when the text
is ASCII — theorems about this function therefore carry an ASCII-text
hypothesis. -/
def search_users_by_name (st : Store) (text : String) : List User :=
  let pattern := '%' :: (asciiLower text).data ++ ['%']
  st.rows.filter (fun u => likeMatch pattern (asciiLower u.name).data)

/-- Executable substring test used to state the search property:
`needle` occurs contiguously inside `hay`. -/
def isSubOf (needle hay : List Char) : Bool :=
  (List.range (hay.length + 1)).any
    (fun i => needle.isPrefixOf (hay.drop i))

/-! ## Password hashing and JWT (`user_usecase.py`, `auth_middleware.py`) -/

/-- Model of werkzeug `generate_password_hash(password, method='pbkdf2:sha256')`:
an opaque tagged encoding; `check_password_hash` succeeds exactly on the
password the hash was generated from (ideal salted hash). -/
def generate_password_hash (password : String) : String :=
  "pbkdf2:sha256$" ++ password

/-- Model of werkzeug `check_password_hash`. -/
def check_password_hash (hash password : String) : Bool :=
  hash == generate_password_hash password

/-- The fixed symmetric signing key (`JWT_SECRET_KEY` from the process
environment; both the use-case layer and the middleware read the same
variable with the same default). -/
def jwtSecretKey : String := "JWT_SECRET_KEY"

/-- A signed JWT in symbolic form: its payload, the key it was signed with
and the signing algorithm.  Signature forgery is impossible in the model, so
a token value *is* its verified content. -/
structure Jwt where
  payload : List (String × JVal)
  key : String
  alg : String
deriving DecidableEq, Repr

/-- Error kinds of `jwt.decode`. -/
inductive JwtErr where
  | expiredSignature : JwtErr
  | invalidToken : JwtErr
deriving DecidableEq, Repr

/-- `jwt.decode(token, key, algorithms)` at clock time `now`: the signature
check succeeds iff key and algorithm agree; an `exp` claim, when present, is
compared against the clock; with no `exp` claim no expiry check happens. -/
def jwt_decode (t : Jwt) (key : String) (algs : List String) (now : Int) :
    Except JwtErr (List (String × JVal)) :=
  if t.key ≠ key ∨ t.alg ∉ algs then .error .invalidToken
  else
    match lookupJ t.payload "exp" with
    | some (.vint e) =>
      if e ≤ now then .error .expiredSignature else .ok t.payload
    | some _ => .error .invalidToken
    | none => .ok t.payload

/-! ## Use-case layer (`user_usecase.py`) -/

/-- `UserUseCase.create_user`: defensive required-field check, then hash and
delegate to the repository. -/
def usecase_create_user (st : Store) (name email password : String) :
    Except OpErr Store :=
  if name = "" ∨ email = "" ∨ password = "" then .error .valueError
  else repo_create_user st name email (generate_password_hash password)

/-- `UserUseCase.update_user` with the raw field values the controller read
from the JSON body (each `none` = Python `None` / absent).  Re-hashes the
password only when truthy; non-string truthy passwords make werkzeug raise
(`pyError`). -/
def usecase_update_user (st : Store) (i : Int)
    (name email password : Option JVal) : Except OpErr Store := do
  if optFalsy name ∧ optFalsy email ∧ optFalsy password then
    .error .valueError
  else
    let hashed : Option String ←
      match password with
      | some v =>
        if v.truthy then
          match v with
          | .vstr s => .ok (some (generate_password_hash s))
          | _ => .error .pyError
        else .ok none
      | none => .ok none
    -- `if name is not None` in the repository: a Python `None` value and an
    -- absent key both skip the field; other values reach the UPDATE with
    -- SQLite TEXT affinity applied
    repo_update_user st i (name.bind sqlTextOf) (email.bind sqlTextOf) hashed

/-- The token minted by a successful login. -/
def mintedToken (u : User) : Jwt :=
  ⟨[("id", .vint u.user_id), ("email", .vstr u.email)], jwtSecretKey, "HS256"⟩

/-- `UserUseCase.login_user`: look up by email, verify the hash, mint a
token; any mismatch returns `None`.  Non-string truthy passwords make
werkzeug raise once a user was found. -/
def login_user (st : Store) (email password : JVal) :
    Except OpErr (Option Jwt) :=
  match get_user_by_emailV st email with
  | some u =>
    match password with
    | .vstr p =>
      if check_password_hash u.password p then .ok (some (mintedToken u))
      else .ok none
    | _ => .error .pyError
  | none => .ok none

/-! ## HTTP responses -/

/-- A JSON response body. -/
inductive RBody where
  /-- `jsonify(<dict of primitives>)`. -/
  | obj (fields : List (String × JVal)) : RBody
  /-- `jsonify({'errors': [...]})` from the validation short-circuit. -/
  | errorList (msgs : List String) : RBody
  /-- `jsonify([u.to_dict() for u in users])`. -/
  | userList (xs : List (List (String × JVal))) : RBody
  /-- `jsonify({'token': token})` on successful login. -/
  | tokenObj (t : Jwt) : RBody
deriving DecidableEq, Repr

/-- An HTTP response: status code and JSON body. -/
structure Resp where
  status : Nat
  body : RBody
deriving DecidableEq, Repr

/-- The JSON body of `errorhandler(Exception)` in `error_middleware.py`,
the catch-all that answers an uncaught handler exception with 500. -/
def errorMwBody : RBody :=
  .obj [("error", .vstr "An unexpected error occurred"),
        ("message", .vstr "Please try again later.")]

/-! ## Auth middleware (`auth_middleware.py`) -/

/-- `'Bearer '` as a character list. -/
def bearerPrefix : List Char := "Bearer ".data

/-- Python `str.split(sep)` for a one-character separator. -/
def pySplit (sep : Char) : List Char → List (List Char)
  | [] => [[]]
  | c :: cs =>
    if c = sep then [] :: pySplit sep cs
    else
      match pySplit sep cs with
      | r :: rs => (c :: r) :: rs
      | [] => [[c]]

/-- 401 'Authentication Token is missing!'. -/
def respMissingToken : Resp :=
  ⟨401, .obj [("error", .vstr "Authentication Token is missing!")]⟩

/-- 401 'Malformed Authorization header' (the `except IndexError` branch). -/
def respMalformedHeader : Resp :=
  ⟨401, .obj [("error", .vstr "Malformed Authorization header")]⟩

/-- 401 'Token processing failed' (the generic `except Exception` branch). -/
def respTokenProcessingFailed : Resp :=
  ⟨401, .obj [("error", .vstr "Token processing failed"),
              ("details", .vstr "An unexpected error occurred.")]⟩

/-- The token-extraction phase of `token_required`: from the optional
`Authorization` header value to a non-empty token string, or a 401.
`auth_header.split(' ')[1]` would raise `IndexError` only if the split had a
single element; that dead branch is kept and proved unreachable below. -/
def extractToken (authHeader : Option String) : Except Resp String :=
  match authHeader with
  | none => .error respMissingToken
  | some h =>
    if bearerPrefix.isPrefixOf h.data then
      match (pySplit ' ' h.data).get? 1 with
      | some t => if t = [] then .error respMissingToken else .ok ⟨t⟩
      | none => .error respMalformedHeader
    else .error respMissingToken

/-- The authenticated identity injected as `current_user`. -/
structure CurrentUser where
  id : JVal
  email : JVal
deriving DecidableEq, Repr

/-- The decode-handling phase of `token_required`: branch on the outcome of
`jwt.decode` and build `current_user` from the `id` and `email` claims.
A `KeyError` on a missing claim is caught by the generic `except Exception`
handler. -/
def authorize (decodeResult : Except JwtErr (List (String × JVal))) :
    Except Resp CurrentUser :=
  match decodeResult with
  | .error .expiredSignature =>
    .error ⟨401, .obj [("error", .vstr "Token has expired")]⟩
  | .error .invalidToken =>
    .error ⟨401, .obj [("error", .vstr "Invalid Token: <detail>")]⟩
  | .ok claims =>
    match lookupJ claims "id", lookupJ claims "email" with
    | some i, some e => .ok ⟨i, e⟩
    | _, _ => .error respTokenProcessingFailed

/-! ## Python `int()` parsing (path identifiers) -/

/-- Digits of a Python integer literal after the first digit: single
underscores are allowed between digits. -/
def pyDigitsAux (acc : Nat) : List Char → Option Nat
  | [] => some acc
  | '_' :: c :: cs =>
    if c.isDigit then pyDigitsAux (acc * 10 + (c.toNat - 48)) cs else none
  | '_' :: [] => none
  | c :: cs =>
    if c.isDigit then pyDigitsAux (acc * 10 + (c.toNat - 48)) cs else none

/-- A digit run must start with a digit (no leading underscore). -/
def pyDigits : List Char → Option Nat
  | [] => none
  | c :: cs => if c.isDigit then pyDigitsAux (c.toNat - 48) cs else none

/-- Python `int(s)` for a decimal string: surrounding whitespace stripped,
an optional single sign, then digits; `none` models `ValueError`. -/
def pyIntParse (s : String) : Option Int :=
  let cs := ((s.data.dropWhile isPySpace).reverse.dropWhile isPySpace).reverse
  match cs with
  | '+' :: rest => (pyDigits rest).map (fun n => (n : Int))
  | '-' :: rest => (pyDigits rest).map (fun n => -(n : Int))
  | rest => (pyDigits rest).map (fun n => (n : Int))

example : pyIntParse " 42 " = some 42 := by decide
example : pyIntParse "-7" = some (-7) := by decide
example : pyIntParse "abc" = none := by decide
example : pyIntParse "1_2" = some 12 := by decide
example : pyIntParse "" = none := by decide
example : pyIntParse "4.5" = none := by decide

/-! ## Controllers (`user_controller.py`)

Each handler is modelled on the state it can observe after the
authentication decorator has run: the parsed JSON body, the store, and the
raw path identifier.  Where a handler mutates the store the new store is
returned; the final `Bool` records whether the use-case layer was invoked
(used to state the short-circuit properties). -/

/-- Body of the `except Exception` branch of `create_user`. -/
def createFailBody : RBody :=
  .obj [("error", .vstr "Failed to create user"),
        ("details", .vstr "An internal server error occurred.")]

/-- Body of the `except Exception` branch of `update_user`. -/
def updateFailBody : RBody :=
  .obj [("error", .vstr "Failed to update user"),
        ("details", .vstr "An internal server error occurred.")]

/-- Body of the `except Exception` branch of `login_user`. -/
def loginFailBody : RBody :=
  .obj [("error", .vstr "Login failed"),
        ("details", .vstr "An internal server error occurred.")]

/-- `UserController.create_user`.  The validator runs *outside* the `try`
block: an exception it raises reaches the error middleware (500).  After a
clean validation in create mode the three fields are truthy strings, so the
non-string fall-through (which in Python would raise inside the `try` and
produce the 500 of `except Exception`) is unreachable. -/
def controller_create_user (data : PyObj) (st : Store) : Resp × Store :=
  match validate_user_payload data true with
  | .error _ => (⟨500, errorMwBody⟩, st)
  | .ok errs =>
    if errs ≠ [] then (⟨400, .errorList errs⟩, st)
    else
      match data with
      | .dict es =>
        match lookupJ es "name", lookupJ es "email", lookupJ es "password" with
        | some (.vstr n), some (.vstr e), some (.vstr p) =>
          match usecase_create_user st n e p with
          | .ok st' =>
            (⟨201, .obj [("message", .vstr "User created successfully")]⟩, st')
          | .error .integrity =>
            (⟨409, .obj [("error",
                .vstr "User with this email already exists")]⟩, st)
          | .error _ => (⟨500, createFailBody⟩, st)
        | _, _, _ => (⟨500, createFailBody⟩, st)
      | .prim _ => (⟨500, createFailBody⟩, st)

/-- `UserController.login_user`.  The logging line dereferences
`data.get('email')` before the `if not data` check, so a non-dict body
(including `None`) raises `AttributeError` and reaches the error
middleware. -/
def controller_login_user (data : PyObj) (st : Store) : Resp :=
  match data with
  | .prim _ => ⟨500, errorMwBody⟩
  | .dict es =>
    if es = [] then ⟨400, .obj [("error", .vstr "No login data provided")]⟩
    else
      let e? := lookupJ es "email"
      let p? := lookupJ es "password"
      if optFalsy e? ∨ optFalsy p? then
        ⟨400, .obj [("error", .vstr "Email and password are required")]⟩
      else
        match e?, p? with
        | some e, some p =>
          match login_user st e p with
          | .ok (some t) => ⟨200, .tokenObj t⟩
          | .ok none => ⟨401, .obj [("error", .vstr "Invalid credentials")]⟩
          | .error _ => ⟨500, loginFailBody⟩
        | _, _ => ⟨500, loginFailBody⟩

/-- `UserController.get_user`: coerce the path identifier, then fetch.
The `Bool` is `true` iff `usecase.get_user` was invoked. -/
def controller_get_user (st : Store) (userIdArg : String) : Resp × Bool :=
  match pyIntParse userIdArg with
  | none =>
    (⟨400, .obj [("error",
        .vstr "Invalid user ID format. Must be an integer.")]⟩, false)
  | some i =>
    match get_user_by_id st i with
    | none => (⟨404, .obj [("error", .vstr "User not found")]⟩, true)
    | some u => (⟨200, .obj u.to_dict⟩, true)

/-- `UserController.update_user`.  Validation (update mode) runs before the
`try`; inside the `try` the id coercion precedes the field reads, the
any-field check, the existence check and the use-case call.  A body like the
JSON string `"xyz"` passes update-mode validation with no errors and then
makes `data.get` raise inside the `try` (`except Exception` → 500). -/
def controller_update_user (data : PyObj) (st : Store) (userIdArg : String) :
    Resp × Store × Bool :=
  match validate_user_payload data false with
  | .error _ => (⟨500, errorMwBody⟩, st, false)
  | .ok errs =>
    if errs ≠ [] then (⟨400, .errorList errs⟩, st, false)
    else
      match pyIntParse userIdArg with
      | none =>
        (⟨400, .obj [("error",
            .vstr "Invalid user ID format. Must be an integer.")]⟩, st, false)
      | some i =>
        match data with
        | .prim _ => (⟨500, updateFailBody⟩, st, false)
        | .dict es =>
          let n? := lookupJ es "name"
          let e? := lookupJ es "email"
          let p? := lookupJ es "password"
          if optFalsy n? ∧ optFalsy e? ∧ optFalsy p? then
            (⟨400, .obj [("error",
                .vstr "No fields provided for update")]⟩, st, false)
          else
            match get_user_by_id st i with
            | none =>
              (⟨404, .obj [("error",
                  .vstr "User not found for update")]⟩, st, true)
            | some _ =>
              match usecase_update_user st i n? e? p? with
              | .ok st' =>
                (⟨200, .obj [("message",
                    .vstr "User updated successfully")]⟩, st', true)
              | .error .integrity =>
                (⟨409, .obj [("error",
                    .vstr "Email already exists for another user")]⟩, st, true)
              | .error _ => (⟨500, updateFailBody⟩, st, true)

/-- `UserController.delete_user`. -/
def controller_delete_user (st : Store) (userIdArg : String) :
    Resp × Store × Bool :=
  match pyIntParse userIdArg with
  | none =>
    (⟨400, .obj [("error",
        .vstr "Invalid user ID format. Must be an integer.")]⟩, st, false)
  | some i =>
    match get_user_by_id st i with
    | none =>
      (⟨404, .obj [("error", .vstr "User not found for deletion")]⟩, st, true)
    | some _ =>
      (⟨200, .obj [("message", .vstr "User deleted successfully")]⟩,
        repo_delete_user st i, true)

/-! ## Characterising the validator on JSON-object payloads -/

/-- Pure value of one format block on a dict payload. -/
def fmtBlockD (es : List (String × JVal)) (k : String)
    (checks : JVal → List String) : List String :=
  match lookupJ es k with
  | some v => if v.truthy then checks v else []
  | none => []

/-- Pure value of the whole validator on a dict payload. -/
def dictErrs (es : List (String × JVal)) (create : Bool) : List String :=
  if es = [] then ["No data provided in the request body."]
  else
    let req := if create then requiredErrs es else []
    if req ≠ [] then req
    else
      fmtBlockD es "email" emailValErrs ++
      fmtBlockD es "password" passwordValErrs ++
      fmtBlockD es "name" nameValErrs

/-- The spec's format rule for one optional field: if present and truthy it
must be a string satisfying `good`. -/
def specFieldOk (es : List (String × JVal)) (k : String)
    (good : String → Bool) : Bool :=
  match lookupJ es k with
  | some v =>
    if v.truthy then
      match v with
      | .vstr s => good s
      | _ => false
    else true
  | none => true

/-- "Fully valid" following the stated rules of the spec (§4.2 Validator):
data provided; in create mode name/email/password all supplied (a falsy
value counts as missing); a supplied email matches the address pattern; a
supplied password is at least 8 characters; a supplied name is non-blank
after trimming. -/
def specFullyValid (data : PyObj) (create : Bool) : Bool :=
  match data with
  | .prim _ => false
  | .dict es =>
    es ≠ [] &&
    (!create ||
      (!optFalsy (lookupJ es "name") && !optFalsy (lookupJ es "email") &&
        !optFalsy (lookupJ es "password"))) &&
    specFieldOk es "email" emailRegexMatch &&
    specFieldOk es "password" (fun s => 8 ≤ s.length) &&
    specFieldOk es "name" (fun s => (pyStrip s).length ≠ 0)

lemma any_key_eq_lookup (es : List (String × JVal)) (k : String) :
    es.any (fun kv => kv.1 == k) = (lookupJ es k).isSome := by
  induction es with
  | nil => rfl
  | cons a t ih =>
    by_cases h : a.1 == k
    · simp [lookupJ, List.find?_cons, h, List.any_cons]
    · simp only [lookupJ, List.find?_cons, h, List.any_cons, cond_false]
      simpa [lookupJ] using ih

lemma formatBlock_dict (es : List (String × JVal)) (k : String)
    (checks : JVal → List String) :
    formatBlock (.dict es) k checks = .ok (fmtBlockD es k checks) := by
  unfold formatBlock fmtBlockD
  cases h : lookupJ es k with
  | none =>
    simp [pyHas, any_key_eq_lookup, h, Bind.bind, Except.bind, Pure.pure,
      Except.pure]
  | some v =>
    simp [pyHas, pyIndex, any_key_eq_lookup, h, Bind.bind, Except.bind,
      Pure.pure, Except.pure]
    split <;> rfl

lemma validate_dict (es : List (String × JVal)) (c : Bool) :
    validate_user_payload (.dict es) c = .ok (dictErrs es c) := by
  unfold validate_user_payload dictErrs
  by_cases hes : es = []
  · subst hes; simp [PyObj.truthy, Pure.pure, Except.pure]
  · have ht : (PyObj.dict es).truthy = true := by
      simpa [PyObj.truthy] using hes
    cases c with
    | false =>
      simp [ht, hes, formatBlock_dict, Bind.bind, Except.bind, Pure.pure,
        Except.pure]
    | true =>
      simp [ht, hes, pyGet, requiredErrs, formatBlock_dict,
        Bind.bind, Except.bind, Pure.pure, Except.pure]
      split <;> rfl

lemma requiredErrs_nil_iff (es : List (String × JVal)) :
    requiredErrs es = [] ↔
      (optFalsy (lookupJ es "name") = false ∧
       optFalsy (lookupJ es "email") = false ∧
       optFalsy (lookupJ es "password") = false) := by
  unfold requiredErrs
  cases h1 : optFalsy (lookupJ es "name") <;>
    cases h2 : optFalsy (lookupJ es "email") <;>
    cases h3 : optFalsy (lookupJ es "password") <;> simp

lemma emailBlock_nil_iff (es : List (String × JVal)) :
    fmtBlockD es "email" emailValErrs = [] ↔
      specFieldOk es "email" emailRegexMatch = true := by
  unfold fmtBlockD specFieldOk
  cases h : lookupJ es "email" with
  | none => simp
  | some v =>
    cases v with
    | vstr s =>
      by_cases hs : emailRegexMatch s <;> simp [JVal.truthy, emailValErrs, hs]
    | vnone => simp [JVal.truthy]
    | vint n => by_cases hn : n = 0 <;> simp [JVal.truthy, emailValErrs, hn]
    | vbool b => cases b <;> simp [JVal.truthy, emailValErrs]

lemma passwordBlock_nil_iff (es : List (String × JVal)) :
    fmtBlockD es "password" passwordValErrs = [] ↔
      specFieldOk es "password" (fun s => 8 ≤ s.length) = true := by
  unfold fmtBlockD specFieldOk
  cases h : lookupJ es "password" with
  | none => simp
  | some v =>
    cases v with
    | vstr s =>
      by_cases hs : s.length < 8 <;> simp [JVal.truthy, passwordValErrs, hs]
      omega
    | vnone => simp [JVal.truthy]
    | vint n =>
      by_cases hn : n = 0 <;> simp [JVal.truthy, passwordValErrs, hn]
    | vbool b => cases b <;> simp [JVal.truthy, passwordValErrs]

lemma nameBlock_nil_iff (es : List (String × JVal)) :
    fmtBlockD es "name" nameValErrs = [] ↔
      specFieldOk es "name" (fun s => (pyStrip s).length ≠ 0) = true := by
  unfold fmtBlockD specFieldOk
  cases h : lookupJ es "name" with
  | none => simp
  | some v =>
    cases v with
    | vstr s =>
      by_cases hs : (pyStrip s).length = 0 <;> simp [JVal.truthy, nameValErrs, hs]
    | vnone => simp [JVal.truthy]
    | vint n => by_cases hn : n = 0 <;> simp [JVal.truthy, nameValErrs, hn]
    | vbool b => cases b <;> simp [JVal.truthy, nameValErrs]

lemma dictErrs_nil_iff (es : List (String × JVal)) (c : Bool) :
    dictErrs es c = [] ↔ specFullyValid (.dict es) c = true := by
  unfold dictErrs specFullyValid
  by_cases hes : es = []
  · simp [hes]
  · simp only [if_neg hes]
    cases c with
    | false =>
      simp [hes, emailBlock_nil_iff, passwordBlock_nil_iff, nameBlock_nil_iff,
        and_assoc]
    | true =>
      simp only [if_true]
      by_cases hreq : requiredErrs es = []
      · obtain ⟨h1, h2, h3⟩ := (requiredErrs_nil_iff es).mp hreq
        simp [hes, hreq, h1, h2, h3, emailBlock_nil_iff, passwordBlock_nil_iff,
          nameBlock_nil_iff, and_assoc]
      · rw [if_pos hreq]
        by_cases h1 : optFalsy (lookupJ es "name") = true <;>
          by_cases h2 : optFalsy (lookupJ es "email") = true <;>
            by_cases h3 : optFalsy (lookupJ es "password") = true <;>
              first
                | exact absurd ((requiredErrs_nil_iff es).mpr
                    ⟨by simpa using h1, by simpa using h2, by simpa using h3⟩)
                    hreq
                | simp [h1, h2, h3, hreq]

/-! ## Theory of `LIKE` matching -/

lemma likeMatchF_fuel : ∀ (f g : Nat) (p s : List Char),
    p.length + s.length < f → p.length + s.length < g →
    likeMatchF f p s = likeMatchF g p s := by
  intro f
  induction f with
  | zero => intro g p s hf _; omega
  | succ f ih =>
    intro g p s hf hg
    cases g with
    | zero => omega
    | succ g =>
      cases p with
      | nil => simp [likeMatchF]
      | cons p ps =>
        simp only [List.length_cons] at hf hg
        by_cases hp : p = '%'
        · subst hp
          have h1 : likeMatchF f ps s = likeMatchF g ps s := by
            apply ih <;> omega
          cases s with
          | nil => simp [likeMatchF, h1]
          | cons c s' =>
            simp only [List.length_cons] at hf hg
            have h2 : likeMatchF f ('%' :: ps) s' = likeMatchF g ('%' :: ps) s' := by
              apply ih <;> simp only [List.length_cons] <;> omega
            simp [likeMatchF, h1, h2]
        · cases s with
          | nil => simp [likeMatchF, hp]
          | cons c s' =>
            simp only [List.length_cons] at hf hg
            have h2 : likeMatchF f ps s' = likeMatchF g ps s' := by
              apply ih <;> omega
            simp [likeMatchF, hp, h2]

lemma likeMatchF_succ_pct (f : Nat) (ps s : List Char) :
    likeMatchF (f + 1) ('%' :: ps) s =
      (likeMatchF f ps s ||
        match s with | [] => false | _ :: s' => likeMatchF f ('%' :: ps) s') := by
  simp [likeMatchF]

lemma likeMatchF_succ_lit (f : Nat) (p : Char) (ps : List Char) (c : Char)
    (s : List Char) (hp : p ≠ '%') :
    likeMatchF (f + 1) (p :: ps) (c :: s) =
      ((if p = '_' then true else p == c) && likeMatchF f ps s) := by
  simp [likeMatchF, hp]

lemma likeMatch_nil_pat (s : List Char) : likeMatch [] s = s.isEmpty := by
  cases s <;> rfl

lemma likeMatchF_to (f : Nat) (p s : List Char) (h : p.length + s.length < f) :
    likeMatchF f p s = likeMatch p s := by
  unfold likeMatch
  apply likeMatchF_fuel
  · exact h
  · omega

lemma likeMatch_pct (ps s : List Char) :
    likeMatch ('%' :: ps) s =
      (likeMatch ps s ||
        match s with | [] => false | _ :: s' => likeMatch ('%' :: ps) s') := by
  cases s with
  | nil =>
    rw [show likeMatch ('%' :: ps) [] = likeMatchF (ps.length + 1 + 1) ('%' :: ps) []
      from (likeMatchF_to _ _ _ (by simp)).symm]
    rw [likeMatchF_succ_pct,
      likeMatchF_to (ps.length + 1) ps [] (by simp)]
  | cons c s' =>
    rw [show likeMatch ('%' :: ps) (c :: s') =
        likeMatchF (ps.length + s'.length + 1 + 1 + 1) ('%' :: ps) (c :: s')
      from (likeMatchF_to _ _ _ (by simp only [List.length_cons]; omega)).symm]
    rw [likeMatchF_succ_pct]
    show (likeMatchF (ps.length + s'.length + 1 + 1) ps (c :: s') ||
        likeMatchF (ps.length + s'.length + 1 + 1) ('%' :: ps) s') =
      (likeMatch ps (c :: s') || likeMatch ('%' :: ps) s')
    rw [likeMatchF_to (ps.length + s'.length + 1 + 1) ps (c :: s')
        (by simp only [List.length_cons]; omega),
      likeMatchF_to (ps.length + s'.length + 1 + 1) ('%' :: ps) s'
        (by simp only [List.length_cons]; omega)]

lemma likeMatch_lit (p : Char) (ps : List Char) (c : Char) (s : List Char)
    (hp : p ≠ '%') :
    likeMatch (p :: ps) (c :: s) =
      ((if p = '_' then true else p == c) && likeMatch ps s) := by
  rw [show likeMatch (p :: ps) (c :: s) =
      likeMatchF (ps.length + s.length + 1 + 1 + 1) (p :: ps) (c :: s)
    from (likeMatchF_to _ _ _ (by simp only [List.length_cons]; omega)).symm]
  rw [likeMatchF_succ_lit _ _ _ _ _ hp,
    likeMatchF_to (ps.length + s.length + 1 + 1) ps s (by omega)]

lemma likeMatch_lit_nil (p : Char) (ps : List Char) (hp : p ≠ '%') :
    likeMatch (p :: ps) [] = false := by
  unfold likeMatch
  simp [likeMatchF, hp]

lemma likeMatch_pct_any (s : List Char) : likeMatch ['%'] s = true := by
  induction s with
  | nil => rfl
  | cons c s' ih => rw [likeMatch_pct]; simp [ih]

/-- A wildcard-free literal pattern followed by `%` matches exactly the
strings it prefixes. -/
lemma likeMatch_lit_pct_iff (t : List Char)
    (hT : ∀ c ∈ t, c ≠ '%' ∧ c ≠ '_') :
    ∀ s : List Char, likeMatch (t ++ ['%']) s = true ↔ t <+: s := by
  induction t with
  | nil =>
    intro s
    simp [likeMatch_pct_any s, List.nil_prefix]
  | cons c t' ih =>
    intro s
    obtain ⟨hc1, hc2⟩ := hT c (List.mem_cons_self c t')
    have hT' : ∀ d ∈ t', d ≠ '%' ∧ d ≠ '_' :=
      fun d hd => hT d (List.mem_cons_of_mem c hd)
    cases s with
    | nil =>
      rw [List.cons_append, likeMatch_lit_nil c (t' ++ ['%']) hc1]
      simp
    | cons d s' =>
      rw [List.cons_append, likeMatch_lit c (t' ++ ['%']) d s' hc1,
        List.cons_prefix_cons]
      simp [hc2, ih hT' s', Bool.and_eq_true, beq_iff_eq]

/-- `%`-headed patterns match a string iff they match some suffix with the
head `%` removed. -/
lemma likeMatch_pct_iff (ps : List Char) :
    ∀ s : List Char, likeMatch ('%' :: ps) s = true ↔
      ∃ s₂, s₂ <:+ s ∧ likeMatch ps s₂ = true := by
  intro s
  induction s with
  | nil =>
    rw [likeMatch_pct]
    constructor
    · intro h
      exact ⟨[], List.suffix_rfl, by simpa using h⟩
    · rintro ⟨s₂, hsuf, hm⟩
      rw [List.suffix_nil] at hsuf
      subst hsuf
      simpa using hm
  | cons c s' ih =>
    rw [likeMatch_pct]
    constructor
    · intro h
      rcases Bool.or_eq_true_iff.mp h with h | h
      · exact ⟨c :: s', List.suffix_rfl, h⟩
      · obtain ⟨s₂, hsuf, hm⟩ := ih.mp h
        exact ⟨s₂, hsuf.trans (List.suffix_cons c s'), hm⟩
    · rintro ⟨s₂, hsuf, hm⟩
      rcases List.suffix_cons_iff.mp hsuf with h | h
      · subst h
        exact Bool.or_eq_true_iff.mpr (Or.inl hm)
      · exact Bool.or_eq_true_iff.mpr (Or.inr (ih.mpr ⟨s₂, h, hm⟩))

/-- For a wildcard-free text, the pattern `%text%` matches exactly the
strings containing the text contiguously. -/
lemma likeMatch_infix_iff (t s : List Char)
    (hT : ∀ c ∈ t, c ≠ '%' ∧ c ≠ '_') :
    likeMatch ('%' :: (t ++ ['%'])) s = true ↔ t <:+: s := by
  rw [likeMatch_pct_iff, List.infix_iff_prefix_suffix]
  constructor
  · rintro ⟨s₂, hsuf, hm⟩
    exact ⟨s₂, (likeMatch_lit_pct_iff t hT s₂).mp hm, hsuf⟩
  · rintro ⟨s₂, hpre, hsuf⟩
    exact ⟨s₂, hsuf, (likeMatch_lit_pct_iff t hT s₂).mpr hpre⟩

lemma isSubOf_iff_infix (t s : List Char) : isSubOf t s = true ↔ t <:+: s := by
  unfold isSubOf
  rw [List.any_eq_true]
  constructor
  · rintro ⟨i, -, hp⟩
    exact List.infix_iff_prefix_suffix.mpr
      ⟨s.drop i, List.isPrefixOf_iff_prefix.mp hp, List.drop_suffix i s⟩
  · intro h
    obtain ⟨mid, hpre, hsuf⟩ := List.infix_iff_prefix_suffix.mp h
    obtain ⟨pre, hpre2⟩ := hsuf
    refine ⟨pre.length, ?_, ?_⟩
    · rw [List.mem_range]
      have : pre.length ≤ s.length := by
        rw [← hpre2, List.length_append]; omega
      omega
    · rw [← hpre2, List.drop_left]
      exact List.isPrefixOf_iff_prefix.mpr hpre

/-! ## Shared concrete fixtures -/

/-- A store holding one user created with password `password123`. -/
def demoStore : Store :=
  ⟨[⟨1, "John Doe", "john@example.com", generate_password_hash "password123"⟩], 2⟩

/-! ## Claims -/

/-- C7, counterexample: with the empty JSON object in create mode, all of
name/email/password are absent, yet the validator returns the single
"No data provided" message instead of the three missing-field messages. -/
theorem C7_empty_payload_counterexample :
    validate_user_payload (.dict []) true =
      .ok ["No data provided in the request body."] ∧
    ["No data provided in the request body."] ≠
      ["Name is required.", "Email is required.", "Password is required."] := by
  exact ⟨by decide, by decide⟩

/-- C7 (amended): for every NON-EMPTY JSON-object payload in create mode, if
any of name/email/password is absent or falsy, the validator returns exactly
the "is required." messages for those fields (in the order name, email,
password) and performs no format checks; an empty or missing payload instead
yields the single "No data provided" message. -/
theorem C7_missing_fields_only_required_errors (es : List (String × JVal))
    (hne : es ≠ []) (hmiss : requiredErrs es ≠ []) :
    validate_user_payload (.dict es) true = .ok (requiredErrs es) := by
  rw [validate_dict]
  unfold dictErrs
  rw [if_neg hne]
  simp only [if_true]
  rw [if_pos hmiss]

/-- C7 witness: a payload supplying only a (truthy) email gets exactly the
name and password missing-field errors, and no "Invalid email format." even
though the email is malformed. -/
theorem C7_missing_fields_witness :
    validate_user_payload (.dict [("email", .vstr "not-an-email")]) true =
      .ok ["Name is required.", "Password is required."] := by
  have h := C7_missing_fields_only_required_errors
    [("email", .vstr "not-an-email")] (by decide) (by decide)
  rw [h]
  decide

/-- C8, counterexample: the validator is not total — on the JSON number `1`
(a truthy non-dict payload, as produced by `request.get_json()` for the body
`1`) the `data.get("name")` call raises `AttributeError`, modelled here as an
`.error` result instead of a list of error strings. -/
theorem C8_nondict_raises_counterexample :
    validate_user_payload (.prim (.vint 1)) true = .error .attributeError := by
  decide

/-- C8 (amended): on every payload that is either missing (`None`) or a JSON
object, and in both modes, the validator returns a list of error strings
without raising, and that list is empty exactly when the payload is fully
valid under the stated rules (`specFullyValid`); truthy non-object payloads
can instead raise. -/
theorem C8_validator_total_on_objects (data : PyObj) (c : Bool)
    (h : data = .prim .vnone ∨ ∃ es, data = .dict es) :
    ∃ errs, validate_user_payload data c = .ok errs ∧
      (errs = [] ↔ specFullyValid data c = true) := by
  rcases h with h | ⟨es, h⟩ <;> subst h
  · refine ⟨["No data provided in the request body."], by cases c <;> decide, ?_⟩
    simp [specFullyValid]
  · exact ⟨dictErrs es c, validate_dict es c, dictErrs_nil_iff es c⟩

/-- C8 witness: on a fully valid create payload the validator returns a list
(namely the empty one). -/
theorem C8_validator_total_witness :
    ∃ errs, validate_user_payload
      (.dict [("name", .vstr "John"), ("email", .vstr "john@example.com"),
              ("password", .vstr "password123")]) true = .ok errs ∧
      (errs = [] ↔ specFullyValid
        (.dict [("name", .vstr "John"), ("email", .vstr "john@example.com"),
                ("password", .vstr "password123")]) true = true) :=
  C8_validator_total_on_objects _ true (Or.inr ⟨_, rfl⟩)

/-! ## Token extraction (C3) -/

lemma pySplit_ne_nil (sep : Char) (l : List Char) : pySplit sep l ≠ [] := by
  induction l with
  | nil => simp [pySplit]
  | cons c cs ih =>
    by_cases h : c = sep
    · simp [pySplit, h]
    · simp only [pySplit, if_neg h]
      cases hp : pySplit sep cs <;> simp

lemma pySplit_cons_ne (sep c : Char) (cs : List Char) (h : c ≠ sep) :
    pySplit sep (c :: cs) =
      match pySplit sep cs with
      | r :: rs => (c :: r) :: rs
      | [] => [[c]] := by
  simp [pySplit, h]

lemma pySplit_cons_sep (sep : Char) (cs : List Char) :
    pySplit sep (sep :: cs) = [] :: pySplit sep cs := by
  simp [pySplit]

lemma pySplit_bearer (rest : List Char) :
    pySplit ' ' ("Bearer ".data ++ rest) = "Bearer".data :: pySplit ' ' rest := by
  cases hp : pySplit ' ' rest with
  | nil => exact absurd hp (pySplit_ne_nil ' ' rest)
  | cons r rs =>
    show pySplit ' ' ('B' :: 'e' :: 'a' :: 'r' :: 'e' :: 'r' :: ' ' :: rest) = _
    rw [pySplit_cons_ne _ _ _ (by decide), pySplit_cons_ne _ _ _ (by decide),
      pySplit_cons_ne _ _ _ (by decide), pySplit_cons_ne _ _ _ (by decide),
      pySplit_cons_ne _ _ _ (by decide), pySplit_cons_ne _ _ _ (by decide),
      pySplit_cons_sep, hp]

lemma extractToken_never_malformed (ah : Option String) :
    extractToken ah ≠ .error respMalformedHeader := by
  cases ah with
  | none => decide
  | some h =>
    simp only [extractToken]
    by_cases hb : bearerPrefix.isPrefixOf h.data
    · obtain ⟨rest, hrest⟩ :=
        List.isPrefixOf_iff_prefix.mp (show "Bearer ".data.isPrefixOf h.data
          from hb)
      rw [if_pos hb, ← hrest, pySplit_bearer]
      cases hq : pySplit ' ' rest with
      | nil => exact absurd hq (pySplit_ne_nil ' ' rest)
      | cons r rs =>
        by_cases hr : r = [] <;> simp [hr]
        decide
    · rw [if_neg hb]
      decide

/-- C3 (corrected): an `Authorization` header present but lacking the
`'Bearer '` prefix is rejected 401 with the SAME
"Authentication Token is missing!" body as a request carrying no header at
all; the "Malformed Authorization header" 401 is never produced (its
`except IndexError` guard is unreachable, since a header that starts with
`'Bearer '` always splits into at least two pieces). -/
theorem C3_malformed_header_not_distinguished (h : String) (ah : Option String)
    (hnb : "Bearer ".data.isPrefixOf h.data = false) :
    extractToken (some h) = .error respMissingToken ∧
    extractToken (some h) = extractToken none ∧
    extractToken ah ≠ .error respMalformedHeader := by
  refine ⟨?_, ?_, extractToken_never_malformed ah⟩ <;>
    simp [extractToken, bearerPrefix, hnb]

/-- C3 counterexample: the header `Token abc` is present and malformed, yet
the middleware's response is byte-for-byte the missing-token 401, not a
distinguishable "malformed header" reason. -/
theorem C3_malformed_header_counterexample :
    extractToken (some "Token abc") = .error respMissingToken ∧
    extractToken none = .error respMissingToken ∧
    respMissingToken ≠ respMalformedHeader := by
  exact ⟨by decide, by decide, by decide⟩

/-- C3 witness. -/
theorem C3_malformed_header_witness :
    extractToken (some "Token abc") = .error respMissingToken ∧
    extractToken (some "Token abc") = extractToken none ∧
    extractToken (some "Token abc") ≠ .error respMalformedHeader :=
  C3_malformed_header_not_distinguished "Token abc" (some "Token abc")
    (by decide)

/-! ## C10: tokens lacking id/email claims -/

/-- C10: a token whose signature verifies under the fixed key and algorithm
but whose payload lacks the `id` or the `email` claim is rejected with a 401
(the `KeyError` on the missing claim falls into the generic
`except Exception` handler; an `exp`-carrying payload may instead fail the
expiry check, still a 401); and whenever the middleware lets the handler run,
the injected `current_user` holds exactly the token's `id` and `email`
claims. -/
theorem C10_missing_claims_rejected (t : Jwt) (now : Int)
    (r : Except JwtErr (List (String × JVal))) (cu : CurrentUser)
    (hk : t.key = jwtSecretKey) (ha : t.alg = "HS256")
    (hmiss : lookupJ t.payload "id" = none ∨ lookupJ t.payload "email" = none) :
    (∃ b, authorize (jwt_decode t jwtSecretKey ["HS256"] now) =
      .error ⟨401, b⟩) ∧
    (authorize r = .ok cu → ∃ cl, r = .ok cl ∧
      lookupJ cl "id" = some cu.id ∧ lookupJ cl "email" = some cu.email) := by
  constructor
  · unfold jwt_decode
    rw [if_neg (by simp [hk, ha])]
    cases hexp : lookupJ t.payload "exp" with
    | none =>
      rcases hmiss with hm | hm
      · exact ⟨.obj [("error", .vstr "Token processing failed"),
          ("details", .vstr "An unexpected error occurred.")],
          by simp [authorize, hm, respTokenProcessingFailed]⟩
      · refine ⟨.obj [("error", .vstr "Token processing failed"),
          ("details", .vstr "An unexpected error occurred.")], ?_⟩
        cases h2 : lookupJ t.payload "id" <;>
          simp [authorize, hm, h2, respTokenProcessingFailed]
    | some v =>
      cases v with
      | vint e =>
        by_cases he : e ≤ now
        · exact ⟨.obj [("error", .vstr "Token has expired")],
            by simp [he, authorize]⟩
        · rcases hmiss with hm | hm
          · exact ⟨.obj [("error", .vstr "Token processing failed"),
              ("details", .vstr "An unexpected error occurred.")],
              by simp [he, authorize, hm, respTokenProcessingFailed]⟩
          · refine ⟨.obj [("error", .vstr "Token processing failed"),
              ("details", .vstr "An unexpected error occurred.")], ?_⟩
            cases h2 : lookupJ t.payload "id" <;>
              simp [he, authorize, hm, h2, respTokenProcessingFailed]
      | vnone =>
        exact ⟨.obj [("error", .vstr "Invalid Token: <detail>")],
          by simp [authorize]⟩
      | vstr s =>
        exact ⟨.obj [("error", .vstr "Invalid Token: <detail>")],
          by simp [authorize]⟩
      | vbool b =>
        exact ⟨.obj [("error", .vstr "Invalid Token: <detail>")],
          by simp [authorize]⟩
  · intro h
    cases r with
    | error e => cases e <;> simp [authorize] at h
    | ok cl =>
      refine ⟨cl, rfl, ?_⟩
      cases h2 : lookupJ cl "id" with
      | none => simp [authorize, h2] at h
      | some i =>
        cases h3 : lookupJ cl "email" with
        | none => simp [authorize, h2, h3] at h
        | some e =>
          simp only [authorize, h2, h3] at h
          cases h
          exact ⟨rfl, rfl⟩

/-- C10 witness: a signed token with neither claim is rejected 401, and a
claims list holding both id and email is passed through into
`current_user`. -/
theorem C10_missing_claims_witness :
    (∃ b, authorize (jwt_decode ⟨[("foo", .vstr "x")], jwtSecretKey, "HS256"⟩
      jwtSecretKey ["HS256"] 0) = .error ⟨401, b⟩) ∧
    (authorize (.ok [("id", .vint 1), ("email", .vstr "john@example.com")]) =
        .ok ⟨.vint 1, .vstr "john@example.com"⟩ →
      ∃ cl, (.ok [("id", .vint 1), ("email", .vstr "john@example.com")] :
          Except JwtErr (List (String × JVal))) = .ok cl ∧
        lookupJ cl "id" = some (.vint 1) ∧
        lookupJ cl "email" = some (.vstr "john@example.com")) :=
  C10_missing_claims_rejected ⟨[("foo", .vstr "x")], jwtSecretKey, "HS256"⟩ 0
    (.ok [("id", .vint 1), ("email", .vstr "john@example.com")])
    ⟨.vint 1, .vstr "john@example.com"⟩ rfl rfl (Or.inl (by decide))

/-! ## C1: the minted token -/

lemma lookupJ_minted_exp (u : User) :
    lookupJ (mintedToken u).payload "exp" = none := by
  simp [mintedToken, lookupJ, List.find?]

lemma lookupJ_minted_id (u : User) :
    lookupJ (mintedToken u).payload "id" = some (.vint u.user_id) := by
  simp [mintedToken, lookupJ, List.find?]

lemma lookupJ_minted_email (u : User) :
    lookupJ (mintedToken u).payload "email" = some (.vstr u.email) := by
  simp [mintedToken, lookupJ, List.find?]

/-- C1 (amended): for every user and correct password, `login_user` returns a
token signed with the fixed symmetric key under HS256 whose payload contains
exactly the claims `{id, email}` — and NO expiry claim, so verification at
any clock time accepts the token (it is never rejected as expired) and the
middleware extracts exactly the user's id and email from it. -/
theorem C1_login_token_never_expires (st : Store) (email pw : String)
    (u : User) (now : Int)
    (hu : get_user_by_email st email = some u)
    (hpw : check_password_hash u.password pw = true) :
    login_user st (.vstr email) (.vstr pw) = .ok (some (mintedToken u)) ∧
    (mintedToken u).key = jwtSecretKey ∧
    (mintedToken u).alg = "HS256" ∧
    (mintedToken u).payload =
      [("id", .vint u.user_id), ("email", .vstr u.email)] ∧
    jwt_decode (mintedToken u) jwtSecretKey ["HS256"] now =
      .ok (mintedToken u).payload ∧
    authorize (jwt_decode (mintedToken u) jwtSecretKey ["HS256"] now) =
      .ok ⟨.vint u.user_id, .vstr u.email⟩ := by
  have hdec : jwt_decode (mintedToken u) jwtSecretKey ["HS256"] now =
      .ok (mintedToken u).payload := by
    unfold jwt_decode
    rw [if_neg (by simp [mintedToken])]
    rw [lookupJ_minted_exp]
  refine ⟨?_, rfl, rfl, rfl, hdec, ?_⟩
  · simp [login_user, get_user_by_emailV, sqlTextOf, hu, hpw]
  · rw [hdec]
    simp [authorize, lookupJ_minted_id, lookupJ_minted_email]

/-- C1 witness: the token of a concrete login, verified at a clock time far
in the future, is still accepted. -/
theorem C1_login_token_witness :
    login_user demoStore (.vstr "john@example.com") (.vstr "password123") =
      .ok (some (mintedToken
        ⟨1, "John Doe", "john@example.com",
          generate_password_hash "password123"⟩)) ∧
    (mintedToken ⟨1, "John Doe", "john@example.com",
      generate_password_hash "password123"⟩).key = jwtSecretKey ∧
    (mintedToken ⟨1, "John Doe", "john@example.com",
      generate_password_hash "password123"⟩).alg = "HS256" ∧
    (mintedToken ⟨1, "John Doe", "john@example.com",
      generate_password_hash "password123"⟩).payload =
      [("id", .vint 1), ("email", .vstr "john@example.com")] ∧
    jwt_decode (mintedToken ⟨1, "John Doe", "john@example.com",
        generate_password_hash "password123"⟩) jwtSecretKey ["HS256"]
        253402300800 =
      .ok (mintedToken ⟨1, "John Doe", "john@example.com",
        generate_password_hash "password123"⟩).payload ∧
    authorize (jwt_decode (mintedToken ⟨1, "John Doe", "john@example.com",
        generate_password_hash "password123"⟩) jwtSecretKey ["HS256"]
        253402300800) =
      .ok ⟨.vint 1, .vstr "john@example.com"⟩ :=
  C1_login_token_never_expires demoStore "john@example.com" "password123"
    ⟨1, "John Doe", "john@example.com", generate_password_hash "password123"⟩
    253402300800 (by decide) (by decide)

/-- C1 counterexample: the claim's expiry bound does not exist — the token
minted for the demo user carries exactly the claims `{id, email}`, no `exp`
claim, and decoding succeeds even at Unix time 253402300800 (the year
10000), so there is no bound after which verification rejects it as
expired. -/
theorem C1_no_expiry_counterexample :
    (login_user demoStore (.vstr "john@example.com") (.vstr "password123")).map
      (Option.map Jwt.payload) =
      .ok (some [("id", .vint 1), ("email", .vstr "john@example.com")]) ∧
    lookupJ [("id", .vint 1), ("email", .vstr "john@example.com")] "exp" =
      none ∧
    jwt_decode ⟨[("id", .vint 1), ("email", .vstr "john@example.com")],
        jwtSecretKey, "HS256"⟩ jwtSecretKey ["HS256"] 253402300800 =
      .ok [("id", .vint 1), ("email", .vstr "john@example.com")] := by
  exact ⟨by decide, by decide, by decide⟩

/-! ## C2: login does not reveal whether the email exists -/

/-- C2: `login_user` returns absent (`None`, not an error) both when no user
has the email and when a user exists but the password does not verify, and
the controller produces the identical 401 "Invalid credentials" response in
the two runs. -/
theorem C2_login_indistinguishable (st₁ st₂ : Store) (e₁ p₁ e₂ p₂ : String)
    (u : User)
    (he₁ : e₁ ≠ "") (hp₁ : p₁ ≠ "") (he₂ : e₂ ≠ "") (hp₂ : p₂ ≠ "")
    (h₁ : get_user_by_email st₁ e₁ = none)
    (h₂ : get_user_by_email st₂ e₂ = some u)
    (hbad : check_password_hash u.password p₂ = false) :
    login_user st₁ (.vstr e₁) (.vstr p₁) = .ok none ∧
    login_user st₂ (.vstr e₂) (.vstr p₂) = .ok none ∧
    controller_login_user
        (.dict [("email", .vstr e₁), ("password", .vstr p₁)]) st₁ =
      controller_login_user
        (.dict [("email", .vstr e₂), ("password", .vstr p₂)]) st₂ ∧
    controller_login_user
        (.dict [("email", .vstr e₁), ("password", .vstr p₁)]) st₁ =
      ⟨401, .obj [("error", .vstr "Invalid credentials")]⟩ := by
  have hl₁ : login_user st₁ (.vstr e₁) (.vstr p₁) = .ok none := by
    simp [login_user, get_user_by_emailV, sqlTextOf, h₁]
  have hl₂ : login_user st₂ (.vstr e₂) (.vstr p₂) = .ok none := by
    simp [login_user, get_user_by_emailV, sqlTextOf, h₂, hbad]
  have hc : ∀ (st : Store) (e p : String), e ≠ "" → p ≠ "" →
      login_user st (.vstr e) (.vstr p) = .ok none →
      controller_login_user
        (.dict [("email", .vstr e), ("password", .vstr p)]) st =
        ⟨401, .obj [("error", .vstr "Invalid credentials")]⟩ := by
    intro st e p he hp hl
    simp [controller_login_user, lookupJ, List.find?, optFalsy, JVal.truthy,
      he, hp, hl]
  have hc₁ := hc st₁ e₁ p₁ he₁ hp₁ hl₁
  have hc₂ := hc st₂ e₂ p₂ he₂ hp₂ hl₂
  exact ⟨hl₁, hl₂, hc₁.trans hc₂.symm, hc₁⟩

/-- C2 witness: a login for an email absent from an empty store and a login
with the wrong password for an existing user produce identical 401
responses. -/
theorem C2_login_indistinguishable_witness :
    login_user ⟨[], 1⟩ (.vstr "ghost@example.com") (.vstr "whatever1") =
      .ok none ∧
    login_user demoStore (.vstr "john@example.com") (.vstr "wrongpass") =
      .ok none ∧
    controller_login_user
        (.dict [("email", .vstr "ghost@example.com"),
                ("password", .vstr "whatever1")]) ⟨[], 1⟩ =
      controller_login_user
        (.dict [("email", .vstr "john@example.com"),
                ("password", .vstr "wrongpass")]) demoStore ∧
    controller_login_user
        (.dict [("email", .vstr "ghost@example.com"),
                ("password", .vstr "whatever1")]) ⟨[], 1⟩ =
      ⟨401, .obj [("error", .vstr "Invalid credentials")]⟩ :=
  C2_login_indistinguishable ⟨[], 1⟩ demoStore "ghost@example.com" "whatever1"
    "john@example.com" "wrongpass"
    ⟨1, "John Doe", "john@example.com", generate_password_hash "password123"⟩
    (by decide) (by decide) (by decide) (by decide) (by decide) (by decide)
    (by decide)

/-! ## C5: create / get round-trip -/

/-- C5: creating a user from a valid payload (non-empty name, well-formed
unused email, password of length ≥ 8) and fetching it by the id the store
assigns yields a user whose name and email equal the payload's, and whose
serialization carries exactly the keys id/name/email — no password field,
raw or hashed.  (`hfresh` is the AUTOINCREMENT invariant: no existing row
already carries the id about to be assigned.) -/
theorem C5_create_get_roundtrip (st : Store) (name email pw : String)
    (hn : name ≠ "") (he : emailRegexMatch email = true) (hp : 8 ≤ pw.length)
    (hunused : ∀ u ∈ st.rows, u.email ≠ email)
    (hfresh : ∀ u ∈ st.rows, u.user_id ≠ st.nextId) :
    ∃ st', usecase_create_user st name email pw = .ok st' ∧
      ∃ u, get_user_by_id st' (st.nextId : Int) = some u ∧
        u.name = name ∧ u.email = email ∧
        u.to_dict.map Prod.fst = ["id", "name", "email"] := by
  have hene : email ≠ "" := by
    intro h
    rw [h] at he
    exact absurd he (by decide)
  have hpne : pw ≠ "" := by
    intro h
    rw [h] at hp
    simp at hp
  have hany : st.rows.any (fun u => u.email == email) = false := by
    rw [List.any_eq_false]
    intro u hu
    simpa using hunused u hu
  refine ⟨⟨st.rows ++ [⟨st.nextId, name, email, generate_password_hash pw⟩],
    st.nextId + 1⟩, ?_, ?_⟩
  · unfold usecase_create_user repo_create_user
    rw [if_neg (by simp [hn, hene, hpne])]
    simp [hany]
  · refine ⟨⟨st.nextId, name, email, generate_password_hash pw⟩, ?_, rfl, rfl,
      by simp [User.to_dict]⟩
    unfold get_user_by_id
    rw [List.find?_append]
    have h1 : st.rows.find?
        (fun u => ((u.user_id : Nat) : Int) == (st.nextId : Int)) = none := by
      rw [List.find?_eq_none]
      intro u hu
      simp only [beq_iff_eq, Int.natCast_inj]
      exact fun hc => hfresh u hu hc
    rw [h1]
    simp [List.find?]

/-- C5 witness: the concrete round-trip on an empty store. -/
theorem C5_create_get_roundtrip_witness :
    ∃ st', usecase_create_user ⟨[], 1⟩ "John Doe" "john@example.com"
        "password123" = .ok st' ∧
      ∃ u, get_user_by_id st' ((1 : Nat) : Int) = some u ∧
        u.name = "John Doe" ∧ u.email = "john@example.com" ∧
        u.to_dict.map Prod.fst = ["id", "name", "email"] :=
  C5_create_get_roundtrip ⟨[], 1⟩ "John Doe" "john@example.com" "password123"
    (by decide) (by decide) (by decide) (by simp) (by simp)

/-! ## C6: duplicate email yields Conflict and leaves the store unchanged -/

lemma field_present_str (es : List (String × JVal)) (k : String)
    (good : String → Bool)
    (hf : optFalsy (lookupJ es k) = false)
    (hs : specFieldOk es k good = true) :
    ∃ s, lookupJ es k = some (.vstr s) ∧ s ≠ "" ∧ good s = true := by
  unfold specFieldOk at hs
  cases hq : lookupJ es k with
  | none => rw [hq] at hf; simp [optFalsy] at hf
  | some v =>
    rw [hq] at hf
    simp only [hq] at hs
    have hv : v.truthy = true := by
      simpa [optFalsy] using hf
    rw [if_pos hv] at hs
    cases v with
    | vstr s => exact ⟨s, rfl, by simpa [JVal.truthy] using hv, hs⟩
    | vnone => simp at hs
    | vint n => simp at hs
    | vbool b => simp at hs

lemma specValid_create_fields (es : List (String × JVal))
    (h : specFullyValid (.dict es) true = true) :
    ∃ n e p, lookupJ es "name" = some (.vstr n) ∧ n ≠ "" ∧
      lookupJ es "email" = some (.vstr e) ∧ e ≠ "" ∧
      lookupJ es "password" = some (.vstr p) ∧ p ≠ "" := by
  unfold specFullyValid at h
  simp only [Bool.and_eq_true, Bool.not_true, Bool.false_or,
    Bool.not_eq_true'] at h
  obtain ⟨⟨⟨⟨-, ⟨⟨hn, he⟩, hp⟩⟩, hspecE⟩, hspecP⟩, hspecN⟩ := h
  obtain ⟨n, hn1, hn2, -⟩ := field_present_str es "name" _ hn hspecN
  obtain ⟨e, he1, he2, -⟩ := field_present_str es "email" _ he hspecE
  obtain ⟨p, hp1, hp2, -⟩ := field_present_str es "password" _ hp hspecP
  exact ⟨n, e, p, hn1, hn2, he1, he2, hp1, hp2⟩

/-- C6: when the store already holds a user with email `E`, a create call
whose (validator-clean) payload carries email `E` is answered 409 Conflict
("User with this email already exists") and the store after the call equals
the store before it — in particular the first user's row is unchanged. -/
theorem C6_duplicate_email_conflict (st : Store) (es : List (String × JVal))
    (E : String) (w : User)
    (hval : validate_user_payload (.dict es) true = .ok [])
    (hemail : lookupJ es "email" = some (.vstr E))
    (hw : w ∈ st.rows) (hwE : w.email = E) :
    controller_create_user (.dict es) st =
      (⟨409, .obj [("error", .vstr "User with this email already exists")]⟩,
        st) := by
  have hd : dictErrs es true = [] := by
    have h2 := (validate_dict es true).symm.trans hval
    simpa using h2
  obtain ⟨n, e, p, hn, hne, heL, hene, hpL, hpne⟩ :=
    specValid_create_fields es ((dictErrs_nil_iff es true).mp hd)
  have heE : e = E := by
    rw [heL] at hemail
    simpa using hemail
  subst heE
  have hany : st.rows.any (fun u => u.email == e) = true :=
    List.any_eq_true.mpr ⟨w, hw, by simp [hwE]⟩
  simp [controller_create_user, hval, hn, heL, hpL, usecase_create_user,
    hne, hene, hpne, repo_create_user, hany]

/-- C6 witness: re-creating the demo user's email is answered 409 with the
store unchanged. -/
theorem C6_duplicate_email_conflict_witness :
    controller_create_user
        (.dict [("name", .vstr "Jane"), ("email", .vstr "john@example.com"),
                ("password", .vstr "password123")]) demoStore =
      (⟨409, .obj [("error", .vstr "User with this email already exists")]⟩,
        demoStore) :=
  C6_duplicate_email_conflict demoStore
    [("name", .vstr "Jane"), ("email", .vstr "john@example.com"),
     ("password", .vstr "password123")]
    "john@example.com"
    ⟨1, "John Doe", "john@example.com", generate_password_hash "password123"⟩
    (by decide) (by decide) (by decide) (by decide)

/-! ## C4: non-numeric path identifiers -/

/-- C4 counterexample: on the PUT route, a request whose body is the JSON
number 5 and whose path identifier is non-numeric makes the validator raise
before the id coercion is reached, so the handler answers 500 via the error
middleware (not 400) — still without invoking the use-case layer. -/
theorem C4_update_nondict_counterexample :
    pyIntParse "abc" = none ∧
    controller_update_user (.prim (.vint 5)) ⟨[], 1⟩ "abc" =
      (⟨500, errorMwBody⟩, ⟨[], 1⟩, false) ∧
    (500 : Nat) ≠ 400 := by
  exact ⟨by decide, by decide, by decide⟩

/-- C4 (amended): for the id-bearing GET and DELETE handlers, every
non-numeric path identifier short-circuits with 400 before the use-case
layer is invoked; for the body-bearing PUT handler the same holds whenever
the body is absent or a JSON object (a 400 from either the id coercion or
the validation short-circuit), while a truthy non-object body can instead
produce a 500 from the validator — in every case the use-case layer is not
invoked and the store is unchanged. -/
theorem C4_nonnumeric_id_short_circuit (st : Store) (data : PyObj) (s : String)
    (hid : pyIntParse s = none)
    (hd : data = .prim .vnone ∨ ∃ es, data = .dict es) :
    (controller_get_user st s).1.status = 400 ∧
    (controller_get_user st s).2 = false ∧
    (controller_delete_user st s).1.status = 400 ∧
    (controller_delete_user st s).2.1 = st ∧
    (controller_delete_user st s).2.2 = false ∧
    (controller_update_user data st s).1.status = 400 ∧
    (controller_update_user data st s).2.1 = st ∧
    (controller_update_user data st s).2.2 = false := by
  refine ⟨?_, ?_, ?_, ?_, ?_, ?_, ?_, ?_⟩ <;>
    first
      | simp [controller_get_user, hid]
      | simp [controller_delete_user, hid]
      | rcases hd with h | ⟨es, h⟩ <;> subst h
        · simp [controller_update_user, validate_user_payload, PyObj.truthy,
            JVal.truthy, Pure.pure, Except.pure]
        · simp only [controller_update_user, validate_dict]
          by_cases hde : dictErrs es false = [] <;> simp [hde, hid]

/-- C4 witness: GET/DELETE/PUT with id `abc` and an object body all return
400 without touching the use-case layer. -/
theorem C4_nonnumeric_id_witness :
    (controller_get_user ⟨[], 1⟩ "abc").1.status = 400 ∧
    (controller_get_user ⟨[], 1⟩ "abc").2 = false ∧
    (controller_delete_user ⟨[], 1⟩ "abc").1.status = 400 ∧
    (controller_delete_user ⟨[], 1⟩ "abc").2.1 = ⟨[], 1⟩ ∧
    (controller_delete_user ⟨[], 1⟩ "abc").2.2 = false ∧
    (controller_update_user (.dict [("name", .vstr "X")]) ⟨[], 1⟩
      "abc").1.status = 400 ∧
    (controller_update_user (.dict [("name", .vstr "X")]) ⟨[], 1⟩
      "abc").2.1 = ⟨[], 1⟩ ∧
    (controller_update_user (.dict [("name", .vstr "X")]) ⟨[], 1⟩
      "abc").2.2 = false :=
  C4_nonnumeric_id_short_circuit ⟨[], 1⟩ (.dict [("name", .vstr "X")]) "abc"
    (by decide) (Or.inr ⟨_, rfl⟩)

/-! ## C9: search by name substring -/

lemma asciiLowerChar_not_wildcard (c : Char) (h1 : c ≠ '%') (h2 : c ≠ '_') :
    asciiLowerChar c ≠ '%' ∧ asciiLowerChar c ≠ '_' := by
  unfold asciiLowerChar
  split <;> first
    | exact ⟨by decide, by decide⟩
    | exact ⟨h1, h2⟩

/-- C9 (amended): for every store and every ASCII search text free of the
SQL `LIKE` wildcards `%` and `_`, the search returns exactly the users whose
ASCII-lowercased name contains the lowercased text as a contiguous substring
(SQLite `LOWER` folds only ASCII, so "case-insensitive" here is ASCII
case-insensitivity).  Texts containing `%` or `_` instead match per `LIKE`
wildcard semantics, and non-ASCII texts are lowered by Python's Unicode
`str.lower()` against SQLite's ASCII-only `LOWER` of the name, a pairing
this ASCII-level characterization does not cover — hence the ASCII
hypothesis. -/
theorem C9_search_case_insensitive_substring (st : Store) (text : String)
    (_hascii : ∀ c ∈ text.data, c.toNat < 128)
    (hw : ∀ c ∈ text.data, c ≠ '%' ∧ c ≠ '_') :
    search_users_by_name st text =
      st.rows.filter (fun u =>
        isSubOf (asciiLower text).data (asciiLower u.name).data) := by
  unfold search_users_by_name
  apply List.filter_congr
  intro u _
  have hT : ∀ c ∈ (asciiLower text).data, c ≠ '%' ∧ c ≠ '_' := by
    intro c hc
    obtain ⟨d, hd, rfl⟩ :=
      List.mem_map.mp (show c ∈ text.data.map asciiLowerChar from hc)
    exact asciiLowerChar_not_wildcard d (hw d hd).1 (hw d hd).2
  have hpat : ('%' :: (asciiLower text).data ++ ['%']) =
      '%' :: ((asciiLower text).data ++ ['%']) := by
    simp
  rw [hpat]
  have h1 := likeMatch_infix_iff (asciiLower text).data
    (asciiLower u.name).data hT
  have h2 := isSubOf_iff_infix (asciiLower text).data (asciiLower u.name).data
  by_cases hL : likeMatch ('%' :: ((asciiLower text).data ++ ['%']))
      (asciiLower u.name).data = true
  · rw [hL]
    exact (h2.mpr (h1.mp hL)).symm
  · rw [Bool.eq_false_iff.mpr hL]
    have hr : isSubOf (asciiLower text).data (asciiLower u.name).data ≠ true :=
      fun hc => hL (h1.mpr (h2.mp hc))
    exact (Bool.eq_false_iff.mpr hr).symm

/-- C9 witness: searching `oh` over users `John Doe` and `Bob Johnson`
matches the filter over lowercased-substring containment (which keeps
both). -/
theorem C9_search_substring_witness :
    search_users_by_name
        ⟨[⟨1, "John Doe", "john@example.com", "h1"⟩,
          ⟨2, "Bob Johnson", "bob@example.com", "h2"⟩], 3⟩ "oh" =
      List.filter (fun u =>
          isSubOf (asciiLower "oh").data (asciiLower u.name).data)
        [⟨1, "John Doe", "john@example.com", "h1"⟩,
         ⟨2, "Bob Johnson", "bob@example.com", "h2"⟩] :=
  C9_search_case_insensitive_substring
    ⟨[⟨1, "John Doe", "john@example.com", "h1"⟩,
      ⟨2, "Bob Johnson", "bob@example.com", "h2"⟩], 3⟩ "oh" (by decide)
    (by decide)

/-- C9 counterexample: the search text is spliced into the `LIKE` pattern
unescaped, so the text `%` matches the demo user even though `%` is not a
substring of the (lowercased) name — the claim "exactly the users whose name
contains the text" fails for wildcard texts. -/
theorem C9_wildcard_counterexample :
    search_users_by_name demoStore "%" = demoStore.rows ∧
    isSubOf (asciiLower "%").data (asciiLower "John Doe").data = false := by
  exact ⟨by decide, by decide⟩
